import Mathlib

/-!
Shallow embedding of `src/custom_components/renpho/sensor.py` (the only source
file of the repository).  Values that the source imports from `const.py`
(`KG_TO_LBS`, `MASS_KILOGRAMS`, `MASS_POUNDS`) and the coordinator created by
`create_coordinator` live in modules that are not part of `src/`; those are
modelled from the spec and marked as such in their doc comments.

Numeric values are embedded as exact rationals; Python's builtin `round`
(which rounds half to even) is embedded as `round2` below.
-/

/-- Modelled from the spec: the conversion constant `KG_TO_LBS` is imported
from `const.py`, which is not under `src/`; the spec (section 4.2) gives its
value as 2.2046226218. -/
def KG_TO_LBS : ℚ := 22046226218 / 10000000000

/-- Modelled from the spec: the unit string `MASS_KILOGRAMS` is imported from
`const.py`, which is not under `src/`.  Only its identity and non-emptiness
matter to the source. -/
def MASS_KILOGRAMS : String := "kg"

/-- Modelled from the spec: the unit string `MASS_POUNDS` is imported from
`const.py`, which is not under `src/`.  Only its identity and non-emptiness
matter to the source. -/
def MASS_POUNDS : String := "lbs"

/-- Python truthiness of a string: a string is truthy iff it is nonempty.
Needed for the final `elif` of `unit_of_measurement` / `unit`, whose condition
uses the bare string `MASS_POUNDS` as a boolean. -/
def truthyStr (s : String) : Bool := s != ""

/-- Python's `round` to an integer on an exact rational input: round half to
even (banker's rounding).  The floor of `q` is computed as `q.num.fdiv q.den`
(the denominator of a `Rat` is positive, so `fdiv` is the floor). -/
def pyRoundInt (q : ℚ) : ℤ :=
  let f : ℤ := q.num.fdiv q.den
  let r : ℚ := q - (f : ℚ)
  if r < 1 / 2 then f
  else if 1 / 2 < r then f + 1
  else if f % 2 = 0 then f else f + 1

/-- Python's `round(x, 2)` on an exact rational input. -/
def round2 (q : ℚ) : ℚ := (pyRoundInt (q * 100) : ℚ) / 100

/-- The exceptions the coordinator lookup can raise into the sensor's `state`
property: `ConnectionError`, `TimeoutError` (caught together at line 203) and
any other `Exception` (caught at line 208). -/
inductive PyError
  | connectionError
  | timeoutError
  | unexpected

/-- The mutable attributes of a `RenphoSensor` instance (sensor.py line 79).
`_unit` is the native unit from the sensor descriptor; it is an
`Option String` so that an absent/unknown native unit is representable
(Python would store `None`).  `_timestamp` is `none` while the Python
attribute does not exist yet: `__init__` never assigns it, it is first
assigned inside the `state` property (line 198). -/
structure RenphoSensor where
  _metric : String
  _id : String
  _name : String
  _unit : Option String
  _category : String
  _label : String
  _unit_of_measurement : String
  _state : Option ℚ
  _timestamp : Option String

/-- RenphoSensor.__init__ (sensor.py lines 82-102).  The coordinator reference
is held by the Python object but never read by the pure logic embedded here,
so it is omitted from the record; `_state` is initialised to `None` and
`_timestamp` is left unassigned (modelled as `none`). -/
def RenphoSensor.init (id name : String) (unit : Option String)
    (category label metric unit_of_measurement : String) : RenphoSensor :=
  { _metric := metric
    _id := id
    _name := "Renpho " ++ name
    _unit := unit
    _category := category
    _label := label
    _unit_of_measurement := unit_of_measurement
    _state := none
    _timestamp := none }

/-- Property `name` (sensor.py lines 143-145). -/
def RenphoSensor.name (s : RenphoSensor) : String := s._name

/-- Property `category` (sensor.py lines 147-150). -/
def RenphoSensor.category (s : RenphoSensor) : String := s._category

/-- Property `label` (sensor.py lines 152-155). -/
def RenphoSensor.label (s : RenphoSensor) : String := s._label

/-- Property `unit_of_measurement` (sensor.py lines 157-167).  The final
`elif` condition is, by Python precedence and truthiness,
`(uom == KG) or (truthy LBS and unit != KG) or (truthy LBS)`; if no branch
fired the Python property would fall through and return `None`, embedded as
the trailing `none`. -/
def RenphoSensor.unit_of_measurement (s : RenphoSensor) : Option String :=
  if s._unit_of_measurement == MASS_POUNDS && s._unit == some MASS_KILOGRAMS then
    some MASS_POUNDS
  else if s._unit_of_measurement == MASS_KILOGRAMS && s._unit == some MASS_KILOGRAMS then
    some MASS_KILOGRAMS
  else if s._unit_of_measurement == MASS_POUNDS && s._unit == some MASS_POUNDS then
    some MASS_POUNDS
  else if s._unit_of_measurement == MASS_KILOGRAMS
      || (truthyStr MASS_POUNDS && s._unit != some MASS_KILOGRAMS)
      || truthyStr MASS_POUNDS then
    s._unit
  else
    none

/-- Property `unit` (sensor.py lines 169-179), transcribed independently of
`unit_of_measurement`; the two bodies are compared in claim C9. -/
def RenphoSensor.unit (s : RenphoSensor) : Option String :=
  if s._unit_of_measurement == MASS_POUNDS && s._unit == some MASS_KILOGRAMS then
    some MASS_POUNDS
  else if s._unit_of_measurement == MASS_KILOGRAMS && s._unit == some MASS_KILOGRAMS then
    some MASS_KILOGRAMS
  else if s._unit_of_measurement == MASS_POUNDS && s._unit == some MASS_POUNDS then
    some MASS_POUNDS
  else if s._unit_of_measurement == MASS_KILOGRAMS
      || (truthyStr MASS_POUNDS && s._unit != some MASS_KILOGRAMS)
      || truthyStr MASS_POUNDS then
    s._unit
  else
    none

/-- Property `device_state_attributes` (sensor.py lines 125-132).  Reading
`self._timestamp` before it was ever assigned raises `AttributeError` in
Python, embedded as `Except.error`. -/
def RenphoSensor.device_state_attributes (s : RenphoSensor) :
    Except String (String × String × String) :=
  match s._timestamp with
  | none => Except.error "AttributeError"
  | some t => Except.ok (t, s._category, s._label)

/-- Property `extra_state_attributes` (sensor.py lines 134-141), same body as
`device_state_attributes`. -/
def RenphoSensor.extra_state_attributes (s : RenphoSensor) :
    Except String (String × String × String) :=
  match s._timestamp with
  | none => Except.error "AttributeError"
  | some t => Except.ok (t, s._category, s._label)

/-- The value transform of the unit-reconciliation rule, exactly the branch
structure of sensor.py lines 192-197. -/
def reconcileValue (pref : String) (native : Option String) (v : ℚ) : ℚ :=
  if pref == MASS_POUNDS && native == some MASS_KILOGRAMS then
    round2 (v * KG_TO_LBS)
  else if pref == MASS_KILOGRAMS && native == some MASS_KILOGRAMS then
    round2 v
  else
    v

/-- Property `state` (sensor.py lines 181-211).  The awaited result of
`coordinator.get_specific_metric` is passed in as `res` (`Except.error` for a
raised exception, `Except.ok none` for Python `None`), and the formatted
`datetime.now()` string as `now`.  The property only mutates the object, so it
is embedded as a function returning the updated record: both `except` arms
only log, leaving the object unchanged; a `None` metric clears `_state`
(line 201) and leaves `_timestamp` alone; a present value is transformed by
the branch at lines 192-197 and `_timestamp` is set (line 198). -/
def RenphoSensor.state (s : RenphoSensor) (res : Except PyError (Option ℚ))
    (now : String) : RenphoSensor :=
  match res with
  | Except.error _ => s
  | Except.ok none => { s with _state := none }
  | Except.ok (some v) =>
      if s._unit_of_measurement == MASS_POUNDS && s._unit == some MASS_KILOGRAMS then
        { s with _state := some (round2 (v * KG_TO_LBS)), _timestamp := some now }
      else if s._unit_of_measurement == MASS_KILOGRAMS && s._unit == some MASS_KILOGRAMS then
        { s with _state := some (round2 v), _timestamp := some now }
      else
        { s with _state := some v, _timestamp := some now }

/-- The coordinator's cache: metric key to numeric value. -/
abbrev MetricCache := List (String × ℚ)

/-- Modelled from the spec: the coordinator returned by `create_coordinator`
lives in `coordinator.py`, which is not under `src/`.  The spec (sections 4.1
and 5) describes a "one fetch, many waiters" coalescing pattern on a
cooperative single-threaded event loop, so its observable state is embedded
as: the cached snapshot, whether a fetch is in flight, how many upstream
fetches have been issued, and which callers are waiting on the in-flight
fetch. -/
structure CoordinatorModel where
  cache : Option MetricCache
  inFlight : Bool
  fetchCount : ℕ
  waiters : List ℕ

/-- Modelled from the spec: `async_request_refresh` (spec section 4.1).  A
caller arriving while a fetch is in flight joins the waiters of that fetch;
otherwise it starts a new upstream fetch and waits on it. -/
def CoordinatorModel.async_request_refresh (c : CoordinatorModel)
    (caller : ℕ) : CoordinatorModel :=
  if c.inFlight then
    { c with waiters := caller :: c.waiters }
  else
    { c with inFlight := true, fetchCount := c.fetchCount + 1,
             waiters := caller :: c.waiters }

/-- Method `async_update_data` (sensor.py lines 213-215): it only awaits
`self.coordinator.async_request_refresh()`. -/
def RenphoSensor.async_update_data (c : CoordinatorModel)
    (caller : ℕ) : CoordinatorModel :=
  c.async_request_refresh caller

/-- Modelled from the spec: completion of the in-flight fetch (spec sections
4.1 and 5).  The cache is replaced atomically by the fetched snapshot and
every waiter observes that same resulting cache; the returned list pairs each
waiter with the cache state it observes. -/
def CoordinatorModel.finishRefresh (c : CoordinatorModel)
    (result : MetricCache) : CoordinatorModel × List (ℕ × MetricCache) :=
  ({ cache := some result, inFlight := false, fetchCount := c.fetchCount,
     waiters := [] },
   c.waiters.map fun w => (w, result))

/-! Helper lemmas evaluating `round2` at the concrete inputs the claims use. -/

lemma round2_seventy_kg : round2 (70 * KG_TO_LBS) = 15432 / 100 := by
  have h : Int.fdiv 77161791763 5000000 = 15432 := by decide
  norm_num [round2, pyRoundInt, KG_TO_LBS, h]

lemma round2_70005 : round2 (70005 / 1000 : ℚ) = 70 := by
  have h : Int.fdiv 14001 2 = 7000 := by decide
  norm_num [round2, pyRoundInt, h]

/-- C1: for every cached metric value `v`, when the sensor's native unit is
kilograms and the user's display preference is pounds, evaluating the `state`
property sets the rendered value to `round(v * KG_TO_LBS, 2)` and the emitted
unit (`unit_of_measurement`) is pounds; in particular
`round2 (70 * KG_TO_LBS) = 154.32`. -/
theorem renpho_c1_kg_to_lbs (s : RenphoSensor) (v : ℚ) (now : String)
    (h1 : s._unit_of_measurement = MASS_POUNDS)
    (h2 : s._unit = some MASS_KILOGRAMS) :
    (s.state (Except.ok (some v)) now)._state = some (round2 (v * KG_TO_LBS)) ∧
    s.unit_of_measurement = some MASS_POUNDS ∧
    round2 (70 * KG_TO_LBS) = 15432 / 100 := by
  refine ⟨?_, ?_, round2_seventy_kg⟩
  · simp [RenphoSensor.state, h1, h2]
  · simp [RenphoSensor.unit_of_measurement, h1, h2]

/-- Witness for C1: the concrete weight sensor with native unit kilograms and
preference pounds, at input 70.0, renders 154.32 (= 15432/100). -/
theorem renpho_c1_witness :
    ((RenphoSensor.init "weight" "Weight" (some MASS_KILOGRAMS) "Measurements"
        "Weight" "weight" MASS_POUNDS).state (Except.ok (some 70)) "t")._state
      = some (round2 (70 * KG_TO_LBS)) ∧
    (RenphoSensor.init "weight" "Weight" (some MASS_KILOGRAMS) "Measurements"
        "Weight" "weight" MASS_POUNDS).unit_of_measurement = some MASS_POUNDS ∧
    round2 (70 * KG_TO_LBS) = 15432 / 100 :=
  renpho_c1_kg_to_lbs _ 70 "t" rfl rfl

/-- C2: evaluating the `state` property on the result `mv` of the coordinator
lookup (`coordinator.get_specific_metric`) behaves as: if the metric is
absent (`none`), the rendered state is cleared to `none` (unavailable) and
nothing else changes; otherwise the rendered state becomes the value with the
unit-reconciliation rule (`reconcileValue`) applied and the read timestamp is
recorded. -/
theorem renpho_c2_current_value (s : RenphoSensor) (mv : Option ℚ)
    (now : String) :
    s.state (Except.ok mv) now =
      match mv with
      | none => { s with _state := none }
      | some v =>
          { s with _state := some (reconcileValue s._unit_of_measurement s._unit v),
                   _timestamp := some now } := by
  cases mv with
  | none => rfl
  | some v =>
      simp only [RenphoSensor.state, reconcileValue]
      split_ifs <;> rfl

/-- C3 counterexample: with native unit kilograms and preference kilograms,
input 70.005 renders as 70.0, not 70.01 as the claim states: Python's
`round` rounds half to even, and 7000.5 rounds to the even 7000 (the actual
binary float for 70.005 is slightly below 70.005, so CPython also returns
70.0). -/
theorem renpho_c3_counterexample :
    ((RenphoSensor.init "weight" "Weight" (some MASS_KILOGRAMS) "Measurements"
        "Weight" "weight" MASS_KILOGRAMS).state
        (Except.ok (some (70005 / 1000))) "t")._state = some 70 ∧
    (70 : ℚ) ≠ 7001 / 100 := by
  constructor
  · have h : ((RenphoSensor.init "weight" "Weight" (some MASS_KILOGRAMS)
        "Measurements" "Weight" "weight" MASS_KILOGRAMS).state
        (Except.ok (some (70005 / 1000))) "t")._state
          = some (round2 (70005 / 1000)) := by
      simp [RenphoSensor.state, RenphoSensor.init, MASS_KILOGRAMS, MASS_POUNDS]
    rw [h, round2_70005]
  · norm_num

/-- C3 amended: when the native unit is kilograms and the display preference
is kilograms, the rendered value is the cached value rounded to 2 decimals
with round-half-to-even (Python `round`); in particular input 70.005 yields
70.0. -/
theorem renpho_c3_kg_rounding (s : RenphoSensor) (v : ℚ) (now : String)
    (h1 : s._unit_of_measurement = MASS_KILOGRAMS)
    (h2 : s._unit = some MASS_KILOGRAMS) :
    (s.state (Except.ok (some v)) now)._state = some (round2 v) ∧
    round2 (70005 / 1000 : ℚ) = 70 := by
  refine ⟨?_, round2_70005⟩
  simp [RenphoSensor.state, h1, h2, MASS_KILOGRAMS, MASS_POUNDS]

/-- Witness for C3's amended theorem at the concrete kilogram-preference
sensor and input 70.005. -/
theorem renpho_c3_witness :
    ((RenphoSensor.init "weight" "Weight" (some MASS_KILOGRAMS) "Measurements"
        "Weight" "weight" MASS_KILOGRAMS).state
        (Except.ok (some (70005 / 1000))) "t")._state
      = some (round2 (70005 / 1000)) ∧
    round2 (70005 / 1000 : ℚ) = 70 :=
  renpho_c3_kg_rounding _ (70005 / 1000) "t" rfl rfl

/-- C4: for native unit pounds with preference pounds, and for every native
unit that is neither kilograms nor pounds (including an absent one,
`_unit = none`), evaluating the `state` property leaves the value unchanged
and the emitted unit (`unit_of_measurement`) equals the native unit.  The
embedding is total, so in particular an absent native unit reaches the final
always-truthy branch and passes through rather than erroring. -/
theorem renpho_c4_passthrough (s : RenphoSensor) (v : ℚ) (now : String)
    (h : (s._unit = some MASS_POUNDS ∧ s._unit_of_measurement = MASS_POUNDS) ∨
         (s._unit ≠ some MASS_KILOGRAMS ∧ s._unit ≠ some MASS_POUNDS)) :
    (s.state (Except.ok (some v)) now)._state = some v ∧
    s.unit_of_measurement = s._unit := by
  rcases h with ⟨hu, hp⟩ | ⟨hk, hp⟩
  · constructor
    · simp [RenphoSensor.state, hu, hp, MASS_KILOGRAMS, MASS_POUNDS]
    · simp [RenphoSensor.unit_of_measurement, hu, hp, MASS_KILOGRAMS,
        MASS_POUNDS]
  · have hk' : (s._unit == some MASS_KILOGRAMS) = false :=
      beq_eq_false_iff_ne.mpr hk
    have hp' : (s._unit == some MASS_POUNDS) = false :=
      beq_eq_false_iff_ne.mpr hp
    have ht : truthyStr MASS_POUNDS = true := rfl
    constructor
    · simp [RenphoSensor.state, hk']
    · simp [RenphoSensor.unit_of_measurement, hk', hp', ht]

/-- Witness for C4: the pounds-native, pounds-preference sensor at input
150.0 renders 150.0 unchanged and emits pounds, the native unit. -/
theorem renpho_c4_witness :
    ((RenphoSensor.init "weight" "Weight" (some MASS_POUNDS) "Measurements"
        "Weight" "weight" MASS_POUNDS).state (Except.ok (some 150)) "t")._state
      = some 150 ∧
    (RenphoSensor.init "weight" "Weight" (some MASS_POUNDS) "Measurements"
        "Weight" "weight" MASS_POUNDS).unit_of_measurement
      = (RenphoSensor.init "weight" "Weight" (some MASS_POUNDS) "Measurements"
        "Weight" "weight" MASS_POUNDS)._unit :=
  renpho_c4_passthrough _ 150 "t" (Or.inl ⟨rfl, rfl⟩)

/-- C5: whatever exception the coordinator lookup raises during a `state`
read (ConnectionError, TimeoutError, or any unexpected one), the read leaves
the sensor object — in particular its previously rendered `_state` and
`_timestamp` — entirely unchanged; being a total function, the embedding
returns normally, matching the source's except-and-log-only handlers. -/
theorem renpho_c5_error_degrades (s : RenphoSensor) (e : PyError)
    (now : String) : s.state (Except.error e) now = s := rfl

/-- C6 counterexample: the display name exposed by the `name` property is not
identical to the descriptor's name field: the constructor prefixes it with
"Renpho ", so the sensor built from descriptor name "Weight" exposes
"Renpho Weight". -/
theorem renpho_c6_counterexample :
    (RenphoSensor.init "weight" "Weight" (some MASS_KILOGRAMS) "Measurements"
        "Weight" "weight" MASS_POUNDS).name ≠ "Weight" := by
  decide

/-- C6 amended: the category and label exposed by a sensor view are the
descriptor's fields unchanged, and the display name is the descriptor's name
prefixed with "Renpho "; all three are invariant under every subsequent
`state` read. -/
theorem renpho_c6_static_identity :
    (∀ (id name : String) (unit : Option String)
        (category label metric uom : String),
      (RenphoSensor.init id name unit category label metric uom).category
          = category ∧
      (RenphoSensor.init id name unit category label metric uom).label
          = label ∧
      (RenphoSensor.init id name unit category label metric uom).name
          = "Renpho " ++ name) ∧
    (∀ (s : RenphoSensor) (res : Except PyError (Option ℚ)) (now : String),
      (s.state res now).category = s.category ∧
      (s.state res now).label = s.label ∧
      (s.state res now).name = s.name) := by
  constructor
  · intro id name unit category label metric uom
    exact ⟨rfl, rfl, rfl⟩
  · intro s res now
    rcases res with e | mv
    · exact ⟨rfl, rfl, rfl⟩
    · cases mv with
      | none => exact ⟨rfl, rfl, rfl⟩
      | some v =>
          simp only [RenphoSensor.state, RenphoSensor.category,
            RenphoSensor.label, RenphoSensor.name]
          split_ifs <;> exact ⟨rfl, rfl, rfl⟩

/-- C7: the unit-reconciliation value transform is idempotent under repeated
application with the same preference: converting a kilogram value to pounds
(preference pounds) and then applying the rule again to the result with
native unit pounds and preference pounds returns it unchanged. -/
theorem renpho_c7_idempotent (v : ℚ) :
    reconcileValue MASS_POUNDS (some MASS_POUNDS)
        (reconcileValue MASS_POUNDS (some MASS_KILOGRAMS) v) =
      reconcileValue MASS_POUNDS (some MASS_KILOGRAMS) v := by
  simp [reconcileValue, MASS_POUNDS, MASS_KILOGRAMS]

/-- Any sequence of refresh requests arriving while a fetch is in flight
leaves the in-flight flag set and issues no new upstream fetch. -/
lemma foldl_refresh_preserves (callers : List ℕ) (c : CoordinatorModel)
    (h : c.inFlight = true) :
    (callers.foldl RenphoSensor.async_update_data c).inFlight = true ∧
    (callers.foldl RenphoSensor.async_update_data c).fetchCount
      = c.fetchCount := by
  induction callers generalizing c with
  | nil => exact ⟨h, rfl⟩
  | cons a tl ih =>
      have hstep : (RenphoSensor.async_update_data c a).inFlight = true ∧
          (RenphoSensor.async_update_data c a).fetchCount = c.fetchCount := by
        simp [RenphoSensor.async_update_data,
          CoordinatorModel.async_request_refresh, h]
      rcases ih (RenphoSensor.async_update_data c a) hstep.1 with ⟨h1, h2⟩
      exact ⟨h1, h2.trans hstep.2⟩

/-- C8: in the spec-modelled coordinator, for every sequence of
`async_update_data` (= `async_request_refresh`) calls issued while one fetch
is in flight, the upstream fetch count is unchanged (exactly the one
in-flight fetch occurs), and when that fetch completes every waiting caller
observes the same resulting cache state. -/
theorem renpho_c8_coalesce (c : CoordinatorModel) (callers : List ℕ)
    (r : MetricCache) (h : c.inFlight = true) :
    (callers.foldl RenphoSensor.async_update_data c).fetchCount
      = c.fetchCount ∧
    (((callers.foldl RenphoSensor.async_update_data c).finishRefresh r).2.all
      fun p => p.2 == r) = true := by
  refine ⟨(foldl_refresh_preserves callers c h).2, ?_⟩
  simp only [CoordinatorModel.finishRefresh, List.all_eq_true, List.mem_map]
  rintro p ⟨w, _, rfl⟩
  exact beq_self_eq_true r

/-- Witness for C8: three concurrent callers arrive while a fetch is in
flight; the fetch count stays at 1 and all of them observe the completed
cache. -/
theorem renpho_c8_witness :
    (([0, 1, 2] : List ℕ).foldl RenphoSensor.async_update_data
        ⟨none, true, 1, []⟩).fetchCount = 1 ∧
    (((([0, 1, 2] : List ℕ).foldl RenphoSensor.async_update_data
        ⟨none, true, 1, []⟩).finishRefresh [("weight", 70)]).2.all
      fun p => p.2 == [("weight", 70)]) = true :=
  renpho_c8_coalesce ⟨none, true, 1, []⟩ [0, 1, 2] [("weight", 70)] rfl

/-- C9: the properties `unit` and `unit_of_measurement` compute the same
function of the sensor's display preference and native unit. -/
theorem renpho_c9_unit_props_equal (s : RenphoSensor) :
    s.unit = s.unit_of_measurement := rfl

/-- C10: the constructor never initializes `_timestamp` (so reading
`extra_state_attributes` or `device_state_attributes` on a freshly
constructed sensor fails with AttributeError), and a `state` read either
leaves `_timestamp` untouched or — exactly when the coordinator lookup
returned a present metric value — assigns it the read time. -/
theorem renpho_c10_timestamp_uninitialized :
    (∀ (id name : String) (unit : Option String)
        (category label metric uom : String),
      (RenphoSensor.init id name unit category label metric uom)._timestamp
          = none ∧
      (RenphoSensor.init id name unit category label metric
          uom).extra_state_attributes = Except.error "AttributeError" ∧
      (RenphoSensor.init id name unit category label metric
          uom).device_state_attributes = Except.error "AttributeError") ∧
    (∀ (s : RenphoSensor) (res : Except PyError (Option ℚ)) (now : String),
      (s.state res now)._timestamp = s._timestamp ∨
      (∃ v, res = Except.ok (some v) ∧
        (s.state res now)._timestamp = some now)) := by
  constructor
  · intro id name unit category label metric uom
    exact ⟨rfl, rfl, rfl⟩
  · intro s res now
    rcases res with e | mv
    · exact Or.inl rfl
    · cases mv with
      | none => exact Or.inl rfl
      | some v =>
          refine Or.inr ⟨v, rfl, ?_⟩
          simp only [RenphoSensor.state]
          split_ifs <;> rfl
